import Mathlib

/-!
Verification of the dataset-transfer core of `bids-collector-desktop`
(`src-tauri/src/lib.rs` and `src-tauri/src/s3_client.rs`) against its
natural-language specification.

The Rust code is shallowly embedded: pure functions become Lean functions,
the `HashMap<String, DownloadProgress>` task registry becomes an association
list with HashMap-faithful insert/lookup/update, `Result<T, String>` becomes
`Except String T`, and `u64`/`f64` arithmetic becomes `Nat`/`ℚ` with the
floating-point special cases (`.round()`, `.min(100.0)`, division by zero)
modelled explicitly.  External crates (`sha2`, `hmac`, `hex`, `url`,
`chrono`, `reqwest`) are the boundary of the embedding: their outputs enter
as abstract function parameters or oracle inputs, while everything the
repository itself computes is translated line by line.
-/

/-! ### String helpers

Rust's `str::to_lowercase`, `[T]::join`, `str::ends_with` modelled over the
character list backing a Lean `String` (the repository only handles ASCII
header keys, accessions and XML tags, where `Char.toLower` agrees with
Rust's Unicode lowercasing). -/

/-- Rust `str::to_lowercase`, modelled as mapping `Char.toLower`. -/
def lowerStr (s : String) : String := ⟨s.data.map Char.toLower⟩

/-- Rust `Vec::join(sep)` / the spec side's "joined by newlines". -/
def sepJoin (sep : String) : List String → String
  | [] => ""
  | [x] => x
  | x :: y :: xs => x ++ sep ++ sepJoin sep (y :: xs)

/-- Rust `str::ends_with('/')`. -/
def endsInSlash (s : String) : Bool := s.data.getLast? == some '/'

/-- Byte-order comparison used by Rust's `sort_by_key` on `String`
(UTF-8 byte order coincides with codepoint order). -/
def strLe (a b : String) : Bool := decide (a ≤ b)

/-! ### SigV4 signer (lib.rs `generate_aws_signature_v4_simple`,
s3_client.rs `generate_aws_signature_v4`) -/

/-- Result of the external `url` crate's `Url::parse`: the fields the
repository reads (`path()`, `query()`, `host_str()`, `port()`). -/
structure ParsedUrl where
  path : String
  query : Option String
  host : Option String
  port : Option Nat
deriving DecidableEq, Repr

/-- Rust `headers.iter().collect()` followed by the stable
`sort_by_key(|&(k, _)| k.to_lowercase())`: stable insertion of one header
into an already key-sorted list. -/
def insertHeader (x : String × String) : List (String × String) → List (String × String)
  | [] => [x]
  | y :: ys =>
    if strLe (lowerStr x.1) (lowerStr y.1) then x :: y :: ys
    else y :: insertHeader x ys

/-- Stable sort of the header list by lower-cased key, as
`sort_by_key(|&(k, _)| k.to_lowercase())` does. -/
def sortHeaders : List (String × String) → List (String × String)
  | [] => []
  | x :: xs => insertHeader x (sortHeaders xs)

/-- Embedding of lib.rs `generate_aws_signature_v4_simple`.  The external
primitives are parameters: `hmac` is `hmac::Hmac<Sha256>` over an abstract
byte type `β`, `shaHex` is `hex::encode(Sha256::digest ·)` on a string,
`hexEnc` is `hex::encode` on raw MAC bytes, `strB` is UTF-8 encoding,
`parse` is `Url::parse`, and `dateStr`/`timestampStr` are the `chrono`
formats `%Y%m%d` / `%Y%m%dT%H%M%SZ` of the one timestamp argument.
`format!` calls are modelled as concatenation of their pieces. -/
def generate_aws_signature_v4_simple {β : Type}
    (hmac : β → β → β) (shaHex : String → String) (hexEnc : β → String)
    (strB : String → β) (parse : String → Except String ParsedUrl)
    (method url : String) (headers : List (String × String))
    (access_key secret_key region : String)
    (dateStr timestampStr : String) (content_hash : String) :
    Except String String :=
  match parse url with
  | .error e => .error ("Invalid URL: " ++ e)
  | .ok parsed_url =>
    let canonical_uri := parsed_url.path
    let canonical_query := parsed_url.query.getD ""
    let sorted_headers := sortHeaders headers
    let canonical_headers :=
      String.join (sorted_headers.map (fun kv => lowerStr kv.1 ++ ":" ++ kv.2.trim ++ "\n"))
    let signed_headers_str := sepJoin ";" (sorted_headers.map (fun kv => lowerStr kv.1))
    let canonical_request :=
      method ++ "\n" ++ canonical_uri ++ "\n" ++ canonical_query ++ "\n" ++
        canonical_headers ++ "\n" ++ signed_headers_str ++ "\n" ++ content_hash
    let credential_scope := dateStr ++ "/" ++ region ++ "/" ++ "s3" ++ "/" ++ "aws4_request"
    let canonical_request_hash := shaHex canonical_request
    let string_to_sign :=
      "AWS4-HMAC-SHA256" ++ "\n" ++ timestampStr ++ "\n" ++ credential_scope ++ "\n" ++
        canonical_request_hash
    let date_key := hmac (strB ("AWS4" ++ secret_key)) (strB dateStr)
    let date_region_key := hmac date_key (strB region)
    let date_region_service_key := hmac date_region_key (strB "s3")
    let signing_key := hmac date_region_service_key (strB "aws4_request")
    let signature_hex := hexEnc (hmac signing_key (strB string_to_sign))
    .ok ("AWS4-HMAC-SHA256 Credential=" ++ access_key ++ "/" ++ credential_scope ++
      ", SignedHeaders=" ++ signed_headers_str ++ ", Signature=" ++ signature_hex)

/-- Embedding of s3_client.rs `generate_aws_signature_v4`: identical body to
the lib.rs signer except that the payload-hash line of the canonical request
is the literal `UNSIGNED-PAYLOAD`. -/
def generate_aws_signature_v4 {β : Type}
    (hmac : β → β → β) (shaHex : String → String) (hexEnc : β → String)
    (strB : String → β) (parse : String → Except String ParsedUrl)
    (method url : String) (headers : List (String × String))
    (access_key secret_key region : String)
    (dateStr timestampStr : String) : Except String String :=
  generate_aws_signature_v4_simple hmac shaHex hexEnc strB parse method url headers
    access_key secret_key region dateStr timestampStr "UNSIGNED-PAYLOAD"

/-- Authorization string built exactly as the specification's words dictate:
canonical request `METHOD\nURI\nQUERY\nCANONICAL_HEADERS\nSIGNED_HEADERS\nPAYLOAD_HASH`
with `key:trimmed-value\n` per canonical-header line, string-to-sign
`AWS4-HMAC-SHA256\nTIMESTAMP\nDATE/REGION/s3/aws4_request\nhex(SHA256(canonical_request))`,
signing key from four chained HMACs seeded with `AWS4` + secret over the
date, the region, `s3` and `aws4_request`, and the final header
`AWS4-HMAC-SHA256 Credential=.../..., SignedHeaders=..., Signature=...`. -/
def specSigV4Authorization {β : Type}
    (hmac : β → β → β) (shaHex : String → String) (hexEnc : β → String)
    (strB : String → β) (method : String) (u : ParsedUrl)
    (headers : List (String × String))
    (access_key secret_key region : String)
    (dateStr timestampStr : String) (payload_hash : String) : String :=
  let sorted := sortHeaders headers
  let headerLines := String.join (sorted.map (fun kv => lowerStr kv.1 ++ ":" ++ kv.2.trim ++ "\n"))
  let signedList := sepJoin ";" (sorted.map (fun kv => lowerStr kv.1))
  let canonicalRequest :=
    sepJoin "\n" [method, u.path, u.query.getD "", headerLines, signedList, payload_hash]
  let scope := sepJoin "/" [dateStr, region, "s3", "aws4_request"]
  let stringToSign := sepJoin "\n" ["AWS4-HMAC-SHA256", timestampStr, scope, shaHex canonicalRequest]
  let signingKey :=
    hmac (hmac (hmac (hmac (strB ("AWS4" ++ secret_key)) (strB dateStr)) (strB region))
      (strB "s3")) (strB "aws4_request")
  "AWS4-HMAC-SHA256 Credential=" ++ access_key ++ "/" ++ scope ++
    ", SignedHeaders=" ++ signedList ++ ", Signature=" ++
    hexEnc (hmac signingKey (strB stringToSign))

/-- C1: for every method, URL that parses, header map, region, keys,
timestamp and payload hash, the signer returns exactly the Authorization
string prescribed by the specification (canonical request, string-to-sign,
chained signing key and hex signature built as the spec's words say). -/
theorem signer_matches_spec {β : Type}
    (hmac : β → β → β) (shaHex : String → String) (hexEnc : β → String)
    (strB : String → β) (parse : String → Except String ParsedUrl)
    (method url : String) (u : ParsedUrl) (headers : List (String × String))
    (access_key secret_key region dateStr timestampStr content_hash : String)
    (hparse : parse url = .ok u) :
    generate_aws_signature_v4_simple hmac shaHex hexEnc strB parse method url headers
      access_key secret_key region dateStr timestampStr content_hash =
    .ok (specSigV4Authorization hmac shaHex hexEnc strB method u headers
      access_key secret_key region dateStr timestampStr content_hash) := by
  simp only [generate_aws_signature_v4_simple, specSigV4Authorization, hparse, sepJoin,
    String.append_assoc]

/-- C1 witness: the signer theorem applied at a concrete request. -/
theorem signer_matches_spec_witness :
    (fun (_ : String) => (.ok ⟨"/bucket/key", none, some "h.example", none⟩ :
        Except String ParsedUrl)) "http://h.example/bucket/key" =
      .ok ⟨"/bucket/key", none, some "h.example", none⟩ ∧
    generate_aws_signature_v4_simple (β := Unit) (fun _ _ => ()) (fun _ => "SHA")
      (fun _ => "HEX") (fun _ => ())
      (fun _ => .ok ⟨"/bucket/key", none, some "h.example", none⟩)
      "PUT" "http://h.example/bucket/key" [("host", "h.example")]
      "AK" "SK" "us-east-1" "20250101" "20250101T000000Z" "HASH" =
    .ok (specSigV4Authorization (β := Unit) (fun _ _ => ()) (fun _ => "SHA")
      (fun _ => "HEX") (fun _ => ()) "PUT" ⟨"/bucket/key", none, some "h.example", none⟩
      [("host", "h.example")] "AK" "SK" "us-east-1" "20250101" "20250101T000000Z" "HASH") :=
  ⟨rfl, signer_matches_spec (fun _ _ => ()) (fun _ => "SHA") (fun _ => "HEX") (fun _ => ())
    (fun _ => .ok ⟨"/bucket/key", none, some "h.example", none⟩)
    "PUT" "http://h.example/bucket/key" ⟨"/bucket/key", none, some "h.example", none⟩
    [("host", "h.example")] "AK" "SK" "us-east-1" "20250101" "20250101T000000Z" "HASH" rfl⟩

/-! ### Char/lowercasing facts needed for accession normalization -/

/-- Characters with code at most 57 (digits, punctuation) are fixed by
`Char.toLower`. -/
theorem char_toLower_of_le (c : Char) (h : c.val.toNat ≤ 57) : c.toLower = c := by
  simp only [Char.toLower, Char.toNat]
  rw [if_neg]
  omega

/-- Decimal digits are fixed by `Char.toLower`. -/
theorem digit_toLower (c : Char) (h : c.isDigit = true) : c.toLower = c := by
  simp [Char.isDigit] at h
  exact char_toLower_of_le c (UInt32.toNat_le_of_le (by decide) h.2)

/-- A list of decimal digits is fixed by character-wise lowercasing. -/
theorem map_toLower_digits (l : List Char) (h : l.all Char.isDigit = true) :
    l.map Char.toLower = l := by
  induction l with
  | nil => rfl
  | cons c t ih =>
    simp only [List.all_cons, Bool.and_eq_true] at h
    simp [digit_toLower c h.1, ih h.2]

/-! ### Accession normalization (lib.rs `extract_openneuro_accession`) -/

/-- The case-sensitive regex `^ds\d+$` of `extract_openneuro_accession`:
a literal lowercase `ds` followed by one or more decimal digits. -/
def matchesAccession (s : String) : Bool :=
  match s.data with
  | c1 :: c2 :: rest => c1 == 'd' && c2 == 's' && !rest.isEmpty && rest.all Char.isDigit
  | _ => false

/-- Leftmost match of the case-sensitive regex `ds(\d+)`: the digit run
following the first literal lowercase `ds` that is followed by a digit. -/
def findDsDigits : List Char → Option (List Char)
  | [] => none
  | 'd' :: 's' :: rest =>
    let digits := rest.takeWhile Char.isDigit
    if digits.isEmpty then findDsDigits ('s' :: rest) else some digits
  | _ :: rest => findDsDigits rest

/-- Embedding of lib.rs `extract_openneuro_accession`: return a canonical
`ds<digits>` input lowercased, else the first `ds<digits>` substring, else
the input unchanged. -/
def extract_openneuro_accession (path : String) : String :=
  if matchesAccession path then lowerStr path
  else
    match findDsDigits path.data with
    | some digits => "ds" ++ String.mk digits
    | none => path

/-- C4 counterexample: `DS006486` is the canonical form in upper case, but
the code's regexes are case-sensitive, so it is returned unchanged rather
than lower-cased to `ds006486` as the claim states. -/
theorem accession_uppercase_unchanged_counterexample :
    extract_openneuro_accession "DS006486" = "DS006486" ∧
    extract_openneuro_accession "DS006486" ≠ "ds006486" := by
  constructor
  · rfl
  · decide

/-- C4 amended: normalization is case-sensitive.  An input matching
lowercase `ds` + digits is returned unchanged (lowercasing such an input is
the identity); otherwise the first lowercase `ds<digits>` substring is
extracted, as on the DOI example; otherwise — including upper-case
`DS006486` — the input passes through unchanged. -/
theorem accession_normalization_amended :
    (∀ s, matchesAccession s = true → extract_openneuro_accession s = s) ∧
    (∀ s, matchesAccession s = false → findDsDigits s.data = none →
      extract_openneuro_accession s = s) ∧
    extract_openneuro_accession "10.18112_openneuro.ds006486.v1.0.0" = "ds006486" ∧
    extract_openneuro_accession "ds006486" = "ds006486" ∧
    extract_openneuro_accession "DS006486" = "DS006486" := by
  refine ⟨?_, ?_, rfl, rfl, rfl⟩
  · intro s h
    have hfix : lowerStr s = s := by
      cases s with
      | mk data =>
        simp only [matchesAccession] at h
        have hl : data.map Char.toLower = data := by
          match data, h with
          | c1 :: c2 :: rest, h =>
            simp only [Bool.and_eq_true, beq_iff_eq] at h
            obtain ⟨⟨⟨hc1, hc2⟩, -⟩, hdig⟩ := h
            subst hc1; subst hc2
            simp only [List.map_cons, map_toLower_digits rest hdig, List.cons.injEq]
            exact ⟨by decide, by decide, trivial⟩
        simp only [lowerStr, hl]
    simp [extract_openneuro_accession, h, hfix]
  · intro s h1 h2
    simp [extract_openneuro_accession, h1, h2]

/-- C4 witness: the amended normalization theorem applied to the canonical
accession `ds006486` and to an input with no `ds<digits>` substring. -/
theorem accession_normalization_witness :
    matchesAccession "ds006486" = true ∧
    extract_openneuro_accession "ds006486" = "ds006486" ∧
    matchesAccession "no-match-here" = false ∧
    findDsDigits "no-match-here".data = none ∧
    extract_openneuro_accession "no-match-here" = "no-match-here" :=
  ⟨by decide, accession_normalization_amended.1 "ds006486" (by decide), by decide, by decide,
    accession_normalization_amended.2.1 "no-match-here" (by decide) (by decide)⟩

/-! ### Task registry (lib.rs `DownloadProgress`,
`HashMap<String, DownloadProgress>` behind the state mutex) -/

/-- Embedding of the lib.rs `DownloadProgress` struct.  `progress` and
`speed` are `f64` in Rust, modelled as rationals; the timestamps are the
RFC 3339 strings `chrono` produces, taken as opaque inputs. -/
structure DownloadProgress where
  task_id : String
  status : String
  progress : ℚ
  total_size : Nat
  downloaded_size : Nat
  speed : ℚ
  current_file : Option String
  total_files : Option Nat
  completed_files : Option Nat
  error_message : Option String
  started_at : Option String
  completed_at : Option String
deriving DecidableEq, Repr

/-- The shared `HashMap<String, DownloadProgress>` as an association list
(at most one entry per key). -/
def Registry : Type := List (String × DownloadProgress)

/-- Rust `HashMap::get` / `get(&task_id).cloned()`. -/
def lookupTask : Registry → String → Option DownloadProgress
  | [], _ => none
  | (k, v) :: rest, id => if k = id then some v else lookupTask rest id

/-- Rust `HashMap::insert`: replaces the value when the key is present,
otherwise adds the entry. -/
def insertTask : Registry → String → DownloadProgress → Registry
  | [], id, v => [(id, v)]
  | (k, w) :: rest, id, v =>
    if k = id then (id, v) :: rest else (k, w) :: insertTask rest id v

/-- The repeated lib.rs pattern `if let Some(progress) = downloads.get_mut(id)`:
mutate the entry when present, silently do nothing otherwise. -/
def updateTask : Registry → String → (DownloadProgress → DownloadProgress) → Registry
  | [], _, _ => []
  | (k, w) :: rest, id, f =>
    if k = id then (k, f w) :: rest else (k, w) :: updateTask rest id f

/-- Rust `HashMap::remove` (lib.rs `cleanup_download_task`). -/
def removeTask (reg : Registry) (id : String) : Registry :=
  reg.filter (fun kv => !(kv.1 == id))

theorem lookup_insertTask_self (reg : Registry) (id : String) (v : DownloadProgress) :
    lookupTask (insertTask reg id v) id = some v := by
  induction reg with
  | nil => simp [insertTask, lookupTask]
  | cons kv rest ih =>
    obtain ⟨k, w⟩ := kv
    by_cases h : k = id <;> simp [insertTask, lookupTask, h, ih]

theorem lookup_updateTask_self (reg : Registry) (id : String)
    (f : DownloadProgress → DownloadProgress) :
    lookupTask (updateTask reg id f) id = (lookupTask reg id).map f := by
  induction reg with
  | nil => simp [updateTask, lookupTask]
  | cons kv rest ih =>
    obtain ⟨k, w⟩ := kv
    by_cases h : k = id <;> simp [updateTask, lookupTask, h, ih]

theorem updateTask_absent (reg : Registry) (id : String)
    (f : DownloadProgress → DownloadProgress) (h : lookupTask reg id = none) :
    updateTask reg id f = reg := by
  induction reg with
  | nil => rfl
  | cons kv rest ih =>
    obtain ⟨k, w⟩ := kv
    by_cases hk : k = id
    · simp [lookupTask, hk] at h
    · simp only [lookupTask, if_neg hk] at h
      simp [updateTask, hk, ih h]

/-! ### Task submission (lib.rs `start_download_task`) -/

/-- The fresh `DownloadProgress` that `start_download_task` inserts before
spawning the background work. -/
def freshProgress (task_id now : String) : DownloadProgress :=
  { task_id := task_id
    status := "starting"
    progress := 0
    total_size := 0
    downloaded_size := 0
    speed := 0
    current_file := none
    total_files := none
    completed_files := none
    error_message := none
    started_at := some now
    completed_at := none }

/-- Embedding of the synchronous part of lib.rs `start_download_task`: it
unconditionally inserts a fresh progress record under the given id and
returns `Ok("Download started in background")`; the spawned transfer itself
is modelled separately. -/
def start_download_task (reg : Registry) (task_id now : String) :
    Registry × Except String String :=
  (insertTask reg task_id (freshProgress task_id now),
   .ok "Download started in background")

/-- C2 counterexample: with task `t1` already present (and even completed),
submitting `t1` again does not fail with a duplicate-task error — it
acknowledges and replaces the existing state with a fresh `starting` one. -/
theorem duplicate_submit_counterexample :
    (start_download_task
        [("t1", { freshProgress "t1" "T0" with status := "completed" })] "t1" "T1").2 =
      Except.ok "Download started in background" ∧
    lookupTask (start_download_task
        [("t1", { freshProgress "t1" "T0" with status := "completed" })] "t1" "T1").1 "t1" =
      some (freshProgress "t1" "T1") ∧
    some (freshProgress "t1" "T1") ≠
      some ({ freshProgress "t1" "T0" with status := "completed" }) := by
  refine ⟨rfl, rfl, ?_⟩
  decide

/-- C2 amended: submission never checks for duplicates.  For every registry
state it succeeds with the acknowledgement string and (re)creates the entry,
so a submission under an existing id silently replaces that task's state
with a fresh `starting` record. -/
theorem submit_acks_and_replaces (reg : Registry) (id now : String) :
    (start_download_task reg id now).2 = .ok "Download started in background" ∧
    lookupTask (start_download_task reg id now).1 id = some (freshProgress id now) :=
  ⟨rfl, lookup_insertTask_self reg id (freshProgress id now)⟩

/-! ### Cancellation (lib.rs `cancel_download_task`) -/

/-- Embedding of lib.rs `cancel_download_task`: if the id is present its
status becomes `cancelled` and `completed_at` is overwritten with the
current time, whatever the previous status was; the command always returns
`Ok("Download cancelled")`. -/
def cancel_download_task (reg : Registry) (task_id now : String) :
    Registry × Except String String :=
  (updateTask reg task_id
    (fun p => { p with status := "cancelled", completed_at := some now }),
   .ok "Download cancelled")

/-- C3 counterexample: cancelling a task already in the terminal status
`completed` (with completion time `T1`) overwrites both its status and its
completion timestamp, contradicting the claim that no operation changes a
terminal task. -/
theorem cancel_terminal_counterexample :
    lookupTask (cancel_download_task
        [("t1", { freshProgress "t1" "T0" with
                    status := "completed", completed_at := some "T1" })] "t1" "T2").1 "t1" =
      some { freshProgress "t1" "T0" with
               status := "cancelled", completed_at := some "T2" } ∧
    ("cancelled" : String) ≠ "completed" ∧ some "T2" ≠ some "T1" := by
  refine ⟨rfl, by decide, by decide⟩

/-- C3 amended: `cancel_download_task` is status-blind.  For every present
task — terminal or not — it overwrites the status with `cancelled` and the
completion timestamp with the current time; for an absent id it leaves the
registry unchanged.  Terminal statuses are thus not preserved by cancel. -/
theorem cancel_overwrites_any_status :
    (∀ (reg : Registry) (id now : String) (p : DownloadProgress),
      lookupTask reg id = some p →
      lookupTask (cancel_download_task reg id now).1 id =
        some { p with status := "cancelled", completed_at := some now }) ∧
    (∀ (reg : Registry) (id now : String),
      lookupTask reg id = none → (cancel_download_task reg id now).1 = reg) := by
  constructor
  · intro reg id now p hp
    simp [cancel_download_task, lookup_updateTask_self, hp]
  · intro reg id now h
    simp [cancel_download_task, updateTask_absent reg id _ h]

/-- C3 witness: the cancel theorem applied to a concrete registry holding a
completed task, and to an id that is absent. -/
theorem cancel_overwrites_any_status_witness :
    lookupTask [("t1", freshProgress "t1" "T0")] "t1" = some (freshProgress "t1" "T0") ∧
    lookupTask (cancel_download_task [("t1", freshProgress "t1" "T0")] "t1" "T2").1 "t1" =
      some { freshProgress "t1" "T0" with status := "cancelled", completed_at := some "T2" } ∧
    (cancel_download_task [] "t9" "T2").1 = [] :=
  ⟨rfl,
   cancel_overwrites_any_status.1 [("t1", freshProgress "t1" "T0")] "t1" "T2"
     (freshProgress "t1" "T0") rfl,
   cancel_overwrites_any_status.2 [] "t9" "T2" rfl⟩

/-! ### Manifest parsing (lib.rs `parse_s3_listing`)

The code extracts all regex matches of `<Key>([^<]+)</Key>` and
`<Size>([^<]+)</Size>` from the listing text.  A leftmost match of such a
pattern starts at an occurrence of the opening tag followed by a non-empty
run of non-`<` characters and then the closing tag; the scan resumes after
a match, and after the next character when the opening tag is not completed
to a full match.  `scanTagFuel` implements exactly that scan, with a fuel
argument (consumed one unit per examined position, so the text's length
suffices) to keep the recursion structural. -/

/-- One regex scan for `OP([^<]+)CL`: returns the captured contents of all
non-overlapping leftmost matches, in scan order. -/
def scanTagFuel (op cl : List Char) : Nat → List Char → List (List Char)
  | 0, _ => []
  | _ + 1, [] => []
  | fuel + 1, c :: t =>
    if op.isPrefixOf (c :: t) then
      let rest := (c :: t).drop op.length
      let content := rest.takeWhile (fun x => !(x == '<'))
      let rest2 := rest.drop content.length
      if !content.isEmpty && cl.isPrefixOf rest2 then
        content :: scanTagFuel op cl fuel (rest2.drop cl.length)
      else
        scanTagFuel op cl fuel t
    else
      scanTagFuel op cl fuel t

/-- Regex capture scan over a string, fuelled by its length. -/
def scanTag (op cl : List Char) (s : String) : List (List Char) :=
  scanTagFuel op cl s.data.length s.data

/-- Rust `"…".parse::<u64>().unwrap_or(0)`: an optional leading `+`, then
one or more decimal digits whose value fits in 64 bits; every other content
(empty, stray characters, overflow) yields 0. -/
def parseU64OrZero (content : List Char) : Nat :=
  let digits := match content with
    | '+' :: rest => rest
    | _ => content
  if !digits.isEmpty && digits.all Char.isDigit then
    let v := digits.foldl (fun acc c => acc * 10 + (c.toNat - 48)) 0
    if v < 2 ^ 64 then v else 0
  else 0

/-- The `<Key>` capture sequence of `parse_s3_listing`, in scan order. -/
def extractKeys (xml : String) : List String :=
  (scanTag "<Key>".data "</Key>".data xml).map String.mk

/-- The `<Size>` capture sequence of `parse_s3_listing`, each parsed with
`parse::<u64>().unwrap_or(0)`, in scan order. -/
def extractSizes (xml : String) : List Nat :=
  (scanTag "<Size>".data "</Size>".data xml).map parseU64OrZero

/-- Embedding of the lib.rs `S3FileInfo` struct. -/
structure S3FileInfo where
  key : String
  size : Nat
deriving DecidableEq, Repr

/-- The pairing loop of `parse_s3_listing`: walk the zipped key/size pairs
and push every pair whose key does not end in `/`. -/
def pairLoop : List (String × Nat) → List S3FileInfo
  | [] => []
  | (key, size) :: rest =>
    if !endsInSlash key then { key := key, size := size } :: pairLoop rest
    else pairLoop rest

/-- Embedding of lib.rs `parse_s3_listing`.  The two regexes are compiled
from static patterns, so the `Regex::new` error paths are unreachable and
the function always returns `Ok`. -/
def parse_s3_listing (xml : String) : Except String (List S3FileInfo) :=
  .ok (pairLoop ((extractKeys xml).zip (extractSizes xml)))

/-- The manifest stage shared by lib.rs `download_openneuro_dataset`
(lines 58–62) and `upload_openneuro_to_s3` (lines 518–522), given the
already-fetched listing body: parse it, then fail when no entry survived. -/
def download_openneuro_listing (accession xml : String) :
    Except String (List S3FileInfo) :=
  match parse_s3_listing xml with
  | .error e => .error e
  | .ok files =>
    if files.isEmpty then .error ("No files found for dataset: " ++ accession)
    else .ok files

theorem pairLoop_eq_filter (l : List (String × Nat)) :
    pairLoop l = (l.filter (fun p => !endsInSlash p.1)).map
      (fun p => { key := p.1, size := p.2 }) := by
  induction l with
  | nil => rfl
  | cons p rest ih =>
    obtain ⟨key, size⟩ := p
    by_cases h : endsInSlash key <;> simp [pairLoop, List.filter_cons, h, ih]

set_option maxRecDepth 100000 in
/-- C5: for every XML listing text the parser collects the `<Key>` and
`<Size>` capture sequences independently in scan order, pairs them
positionally, and keeps exactly the pairs whose key does not end in `/`,
preserving order; in particular three key/size pairs of which one key is
directory-style yield exactly the other two entries in listing order. -/
theorem parse_listing_pairs_and_filters :
    (∀ xml : String, parse_s3_listing xml =
      .ok ((((extractKeys xml).zip (extractSizes xml)).filter
        (fun p => !endsInSlash p.1)).map (fun p => { key := p.1, size := p.2 }))) ∧
    parse_s3_listing
        ("<Contents><Key>ds1/a.txt</Key><Size>1</Size></Contents>" ++
         "<Contents><Key>ds1/sub/</Key><Size>2</Size></Contents>" ++
         "<Contents><Key>ds1/sub/c.txt</Key><Size>3</Size></Contents>") =
      .ok [{ key := "ds1/a.txt", size := 1 }, { key := "ds1/sub/c.txt", size := 3 }] := by
  constructor
  · intro xml
    simp [parse_s3_listing, pairLoop_eq_filter]
  · rfl

/-- C6 counterexample: a listing whose `<Size>` content is not a valid
integer does not produce a parse error — the size parses to 0 via
`unwrap_or(0)` and the listing succeeds with that entry. -/
theorem size_not_integer_counterexample :
    (download_openneuro_listing "ds1" "<Key>a</Key><Size>notanumber</Size>").isOk = true ∧
    download_openneuro_listing "ds1" "<Key>a</Key><Size>notanumber</Size>" =
      .ok [{ key := "a", size := 0 }] :=
  ⟨rfl, rfl⟩

/-- C6 amended: the listing stage never fails with a parse error — the
static regexes always compile and a malformed `<Size>` content is coerced
to 0, still yielding a manifest entry — and its only failure is the
empty-manifest error, raised exactly when zero entries survive the scan. -/
theorem listing_error_behavior_amended :
    (∀ xml : String, parse_s3_listing xml =
      .ok (pairLoop ((extractKeys xml).zip (extractSizes xml)))) ∧
    (∀ accession xml : String, download_openneuro_listing accession xml =
      if (pairLoop ((extractKeys xml).zip (extractSizes xml))).isEmpty then
        .error ("No files found for dataset: " ++ accession)
      else .ok (pairLoop ((extractKeys xml).zip (extractSizes xml)))) ∧
    download_openneuro_listing "ds1" "<Key>a</Key><Size>bad</Size>" =
      .ok [{ key := "a", size := 0 }] ∧
    download_openneuro_listing "ds1" "<NoKeys/>" =
      .error "No files found for dataset: ds1" := by
  refine ⟨fun _ => rfl, fun accession xml => ?_, rfl, rfl⟩
  simp [download_openneuro_listing, parse_s3_listing]

/-! ### Progress percent computations (lib.rs lines 113–117 and line 579)

The two `f64` percent computations are modelled over ℚ: `round` is
Mathlib's round (Rust's `f64::round` rounds halves away from zero, which
agrees with rounding half up on these non-negative values), and for the
upload path's `(u as f64 / t as f64 * 100.0).min(100.0)` with `t = 0` the
quotient is NaN or +inf and Rust's `f64::min` returns the other operand,
so the model yields 100 there. -/

/-- Per-entry percent of the local-destination loop:
`if total_size > 0 { (downloaded as f64 / total as f64 * 100.0).round() } else { 0.0 }`. -/
def localProgressPercent (downloaded total : Nat) : ℚ :=
  if 0 < total then ((round ((downloaded : ℚ) / (total : ℚ) * 100) : ℤ) : ℚ) else 0

/-- Per-entry percent of the S3-upload loop:
`(uploaded_size as f64 / total_size as f64 * 100.0).min(100.0)`. -/
def uploadProgressPercent (uploaded total : Nat) : ℚ :=
  if total = 0 then 100 else min ((uploaded : ℚ) / (total : ℚ) * 100) 100

/-- C8 counterexample: in the local-destination loop the recorded percent
is the unclamped rounded quotient, so with 4 bytes transferred against a
2-byte manifest total the registry records 200, not the claimed
`transferred/total*100` clamped to [0,100] (which would be 100). -/
theorem percent_unclamped_counterexample :
    localProgressPercent 4 2 = 200 ∧
    localProgressPercent 4 2 ≠ min ((4 : ℚ) / 2 * 100) 100 ∧
    ¬ localProgressPercent 4 2 ≤ 100 := by
  have h4 : ((4 : ℚ) / 2 * 100) = ((200 : ℤ) : ℚ) := by norm_num
  have h : localProgressPercent 4 2 = 200 := by
    simp [localProgressPercent, h4, round_intCast]
  refine ⟨h, ?_, ?_⟩
  · rw [h, h4]
    norm_num
  · rw [h]
    norm_num

/-- C8 amended: the upload-path percent is `min(transferred/total*100, 100)`
(100 when the total is 0), never exceeds 100, equals the claim's unclamped
quotient whenever transferred ≤ total, and is monotone in the transferred
bytes; the local-path percent is the *rounded, unclamped* quotient (0 when
the total is 0), also monotone in the transferred bytes, but it can exceed
100 when the actually transferred bytes exceed the manifest total, as the
counterexample shows. -/
theorem percent_properties_amended :
    (∀ u t : Nat, uploadProgressPercent u t ≤ 100) ∧
    (∀ u₁ u₂ t : Nat, u₁ ≤ u₂ →
      uploadProgressPercent u₁ t ≤ uploadProgressPercent u₂ t) ∧
    (∀ d₁ d₂ t : Nat, d₁ ≤ d₂ →
      localProgressPercent d₁ t ≤ localProgressPercent d₂ t) ∧
    (∀ u t : Nat, 0 < t → u ≤ t →
      uploadProgressPercent u t = (u : ℚ) / (t : ℚ) * 100) := by
  refine ⟨?_, ?_, ?_, ?_⟩
  · intro u t
    by_cases h : t = 0 <;> simp [uploadProgressPercent, h]
  · intro u₁ u₂ t hle
    by_cases h : t = 0
    · simp [uploadProgressPercent, h]
    · simp only [uploadProgressPercent, if_neg h]
      have ht : (0 : ℚ) < t := by positivity
      have : (u₁ : ℚ) / t * 100 ≤ (u₂ : ℚ) / t * 100 := by gcongr
      exact min_le_min this le_rfl
  · intro d₁ d₂ t hle
    by_cases h : 0 < t
    · simp only [localProgressPercent, if_pos h]
      have ht : (0 : ℚ) < t := by positivity
      have hq : (d₁ : ℚ) / t * 100 ≤ (d₂ : ℚ) / t * 100 := by gcongr
      have := Int.floor_mono (add_le_add_right hq (1 / 2))
      rw [← round_eq, ← round_eq] at this
      exact_mod_cast this
    · simp [localProgressPercent, h]
  · intro u t ht hle
    have ht0 : t ≠ 0 := Nat.pos_iff_ne_zero.mp ht
    have htq : (0 : ℚ) < t := by positivity
    have h1 : (u : ℚ) / t * 100 ≤ 100 := by
      have : (u : ℚ) / t ≤ 1 := (div_le_one htq).mpr (by exact_mod_cast hle)
      nlinarith
    simp [uploadProgressPercent, ht0, min_eq_left h1]

/-- C8 witness: the percent theorem applied at concrete byte counts. -/
theorem percent_properties_witness :
    (1 : Nat) ≤ 2 ∧
    uploadProgressPercent 1 4 ≤ uploadProgressPercent 2 4 ∧
    localProgressPercent 1 4 ≤ localProgressPercent 2 4 ∧
    (0 : Nat) < 4 ∧ (2 : Nat) ≤ 4 ∧
    uploadProgressPercent 2 4 = (2 : ℚ) / (4 : ℚ) * 100 :=
  ⟨by decide, percent_properties_amended.2.1 1 2 4 (by decide),
   percent_properties_amended.2.2.1 1 2 4 (by decide), by decide, by decide,
   percent_properties_amended.2.2.2 2 4 (by decide) (by decide)⟩

/-- C10: the local-destination per-entry progress computation is total:
when the recorded total size is zero the percent is set to 0 without
dividing, and the quotient is computed only under the guard `total > 0`. -/
theorem local_percent_guarded :
    (∀ d : Nat, localProgressPercent d 0 = 0) ∧
    (∀ d t : Nat, 0 < t →
      localProgressPercent d t = ((round ((d : ℚ) / (t : ℚ) * 100) : ℤ) : ℚ)) := by
  constructor
  · intro d
    simp [localProgressPercent]
  · intro d t ht
    simp [localProgressPercent, ht]

/-- C10 witness: the guard theorem applied at total sizes 0 and 4. -/
theorem local_percent_guarded_witness :
    localProgressPercent 7 0 = 0 ∧ (0 : Nat) < 4 ∧
    localProgressPercent 1 4 = ((round ((1 : ℚ) / (4 : ℚ) * 100) : ℤ) : ℚ) :=
  ⟨local_percent_guarded.1 7, by decide, local_percent_guarded.2 1 4 (by decide)⟩

/-! ### Connectivity prober (s3_client.rs `test_s3_connection`) -/

/-- Rust `str::starts_with`, over the backing character list. -/
def startsWithStr (p s : String) : Bool := p.data.isPrefixOf s.data

/-- Connection config deserialized by the `test_s3_connection` command. -/
structure S3ConnectionConfig where
  bucket_name : String
  endpoint : String
  region : Option String
  access_key_id : String
  secret_access_key : String
deriving DecidableEq, Repr

/-- Structured probe result returned to the UI. -/
structure S3ConnectionResult where
  success : Bool
  message : String
deriving DecidableEq, Repr

/-- Error classification exposed by `reqwest::Error` that the probe
inspects: `is_connect()`, `is_timeout()`, or anything else. -/
inductive ReqError where
  | connect
  | timeout
  | other (msg : String)
deriving DecidableEq, Repr

/-- Outcome of the sent HEAD request: a response with some status, or a
transport failure. -/
inductive HttpOutcome where
  | response (status : Nat)
  | failure (e : ReqError)
deriving DecidableEq, Repr

/-- The probe URL of `test_s3_connection`:
`endpoint/bucket` when the endpoint starts with `http`, else
`https://endpoint/bucket`. -/
def probeUrl (config : S3ConnectionConfig) : String :=
  if startsWithStr "http" config.endpoint then
    config.endpoint ++ "/" ++ config.bucket_name
  else
    "https://" ++ config.endpoint ++ "/" ++ config.bucket_name

/-- The status/error classification of `test_s3_connection`
(lines 162–215), message for message. -/
def classifyOutcome : HttpOutcome → S3ConnectionResult
  | .response status =>
    if 200 ≤ status ∧ status < 300 then
      { success := true, message := "Successfully connected to S3-compatible service!" }
    else if status = 401 then
      { success := false, message := "Authentication failed (401 Unauthorized). Please check your access key ID and secret access key." }
    else if status = 403 then
      { success := false, message := "Access denied (403 Forbidden). The credentials are valid but do not have permission to access this bucket." }
    else if status = 404 then
      { success := false, message := "Bucket not found (404). Please verify the bucket name and endpoint URL." }
    else if status = 412 then
      { success := false, message := "Precondition Failed (412). This usually indicates the S3 service doesn't support the required headers or authentication method. Try checking if your endpoint URL is correct and if the service supports AWS Signature V4." }
    else
      { success := false, message := "Connection failed with status: " ++ toString status }
  | .failure .connect =>
    { success := false, message := "Cannot reach the S3-compatible service endpoint. Check your endpoint URL and network connectivity." }
  | .failure .timeout =>
    { success := false, message := "Connection timeout. The service may be slow or unreachable." }
  | .failure (.other msg) =>
    { success := false, message := "Connection failed: " ++ msg }

/-- Embedding of s3_client.rs `test_s3_connection`.  The external world
enters as oracles: `parse` is `Url::parse`, the crypto primitives feed the
signer, and `outcome` is what `request_builder.send().await` produced.
The two `?` operators (URL parse and signing) propagate a raw `Err` to the
caller; every transport outcome is classified into a structured result. -/
def test_s3_connection {β : Type}
    (hmac : β → β → β) (shaHex : String → String) (hexEnc : β → String)
    (strB : String → β) (parse : String → Except String ParsedUrl)
    (config : S3ConnectionConfig) (dateStr timestampStr : String)
    (outcome : HttpOutcome) : Except String S3ConnectionResult :=
  let region := config.region.getD "us-east-1"
  let url := probeUrl config
  match parse url with
  | .error e => .error ("Invalid URL: " ++ e)
  | .ok parsed_url =>
    match parsed_url.host with
    | none => .error "No host in URL"
    | some host =>
      let headers := [("host", host), ("x-amz-date", timestampStr),
                      ("x-amz-content-sha256", "UNSIGNED-PAYLOAD")]
      match generate_aws_signature_v4 hmac shaHex hexEnc strB parse "HEAD" url headers
          config.access_key_id config.secret_access_key region dateStr timestampStr with
      | .error e => .error e
      | .ok _authorization => .ok (classifyOutcome outcome)

/-- The claim's closed set of probe outcomes, extended by the generic
transport-failure form the code also produces. -/
def probeOutcomeForms (r : S3ConnectionResult) : Prop :=
  r = { success := true, message := "Successfully connected to S3-compatible service!" } ∨
  r = { success := false, message := "Authentication failed (401 Unauthorized). Please check your access key ID and secret access key." } ∨
  r = { success := false, message := "Access denied (403 Forbidden). The credentials are valid but do not have permission to access this bucket." } ∨
  r = { success := false, message := "Bucket not found (404). Please verify the bucket name and endpoint URL." } ∨
  r = { success := false, message := "Precondition Failed (412). This usually indicates the S3 service doesn't support the required headers or authentication method. Try checking if your endpoint URL is correct and if the service supports AWS Signature V4." } ∨
  (∃ s : Nat, r = { success := false, message := "Connection failed with status: " ++ toString s }) ∨
  r = { success := false, message := "Cannot reach the S3-compatible service endpoint. Check your endpoint URL and network connectivity." } ∨
  r = { success := false, message := "Connection timeout. The service may be slow or unreachable." } ∨
  (∃ m : String, r = { success := false, message := "Connection failed: " ++ m })

/-- C7 counterexample: the probe *does* raise to its caller.  With endpoint
`http://[` the probe URL `http://[/bucket` is rejected by `Url::parse`
(invalid IPv6 host), and `test_s3_connection` returns a raw `Err` through
the `?` operator instead of a structured result. -/
theorem probe_raises_counterexample :
    test_s3_connection (β := Unit) (fun _ _ => ()) (fun _ => "") (fun _ => "")
      (fun _ => ()) (fun _ => .error "invalid IPv6 address")
      { bucket_name := "bucket", endpoint := "http://[", region := none,
        access_key_id := "AK", secret_access_key := "SK" } "D" "T" (.response 200) =
      .error "Invalid URL: invalid IPv6 address" ∧
    (Except.error "Invalid URL: invalid IPv6 address" :
      Except String S3ConnectionResult).isOk = false :=
  ⟨rfl, rfl⟩

/-- C7 amended: when the probe URL parses and has a host, the probe never
raises — it returns a structured result classifying the HTTP outcome into
the closed set {success, 401, 403, 404, 412, generic status failure,
connect failure, timeout failure, generic transport failure}, with success
exactly on 2xx — but a URL-parse failure propagates as a raw error to the
caller (and the probe never touches the task registry: it takes none). -/
theorem probe_outcomes_amended :
    (∀ {β : Type} (hmac : β → β → β) (shaHex : String → String) (hexEnc : β → String)
      (strB : String → β) (parse : String → Except String ParsedUrl)
      (config : S3ConnectionConfig) (dateStr timestampStr : String)
      (outcome : HttpOutcome) (u : ParsedUrl) (h : String),
      parse (probeUrl config) = .ok u → u.host = some h →
      test_s3_connection hmac shaHex hexEnc strB parse config dateStr timestampStr outcome =
        .ok (classifyOutcome outcome)) ∧
    (∀ outcome, probeOutcomeForms (classifyOutcome outcome)) ∧
    (∀ outcome, (classifyOutcome outcome).success = true ↔
      ∃ s, outcome = .response s ∧ 200 ≤ s ∧ s < 300) ∧
    (∀ {β : Type} (hmac : β → β → β) (shaHex : String → String) (hexEnc : β → String)
      (strB : String → β) (parse : String → Except String ParsedUrl)
      (config : S3ConnectionConfig) (dateStr timestampStr : String)
      (outcome : HttpOutcome) (e : String),
      parse (probeUrl config) = .error e →
      test_s3_connection hmac shaHex hexEnc strB parse config dateStr timestampStr outcome =
        .error ("Invalid URL: " ++ e)) := by
  refine ⟨?_, ?_, ?_, ?_⟩
  · intro β hmac shaHex hexEnc strB parse config dateStr timestampStr outcome u h hp hh
    simp [test_s3_connection, generate_aws_signature_v4,
      generate_aws_signature_v4_simple, hp, hh]
  · intro outcome
    cases outcome with
    | response s =>
      by_cases h1 : 200 ≤ s ∧ s < 300
      · exact Or.inl (by simp [classifyOutcome, h1])
      · by_cases h2 : s = 401
        · exact Or.inr (Or.inl (by simp [classifyOutcome, h1, h2]))
        · by_cases h3 : s = 403
          · exact Or.inr (Or.inr (Or.inl (by simp [classifyOutcome, h1, h2, h3])))
          · by_cases h4 : s = 404
            · exact Or.inr (Or.inr (Or.inr (Or.inl
                (by simp [classifyOutcome, h1, h2, h3, h4]))))
            · by_cases h5 : s = 412
              · exact Or.inr (Or.inr (Or.inr (Or.inr (Or.inl
                  (by simp [classifyOutcome, h1, h2, h3, h4, h5])))))
              · exact Or.inr (Or.inr (Or.inr (Or.inr (Or.inr (Or.inl
                  ⟨s, by simp [classifyOutcome, h1, h2, h3, h4, h5]⟩)))))
    | failure e =>
      cases e with
      | connect =>
        exact Or.inr (Or.inr (Or.inr (Or.inr (Or.inr (Or.inr (Or.inl rfl))))))
      | timeout =>
        exact Or.inr (Or.inr (Or.inr (Or.inr (Or.inr (Or.inr (Or.inr (Or.inl rfl)))))))
      | other m =>
        exact Or.inr (Or.inr (Or.inr (Or.inr (Or.inr (Or.inr (Or.inr (Or.inr ⟨m, rfl⟩)))))))
  · intro outcome
    cases outcome with
    | response s =>
      by_cases h1 : 200 ≤ s ∧ s < 300
      · simp [classifyOutcome, h1]
      · by_cases h2 : s = 401
        · simp [classifyOutcome, h1, h2]
        · by_cases h3 : s = 403
          · simp [classifyOutcome, h1, h2, h3]
          · by_cases h4 : s = 404
            · simp [classifyOutcome, h1, h2, h3, h4]
            · by_cases h5 : s = 412
              · simp [classifyOutcome, h1, h2, h3, h4, h5]
              · simp [classifyOutcome, h1, h2, h3, h4, h5]
    | failure e => cases e <;> simp [classifyOutcome]
  · intro β hmac shaHex hexEnc strB parse config dateStr timestampStr outcome e hp
    simp [test_s3_connection, hp]

/-- C7 witness: the probe theorem applied to a parsing URL with a host
(outcome 404) and to a failing parse. -/
theorem probe_outcomes_witness :
    ((fun _ : String => (.ok ⟨"/b", none, some "h", none⟩ : Except String ParsedUrl))
        (probeUrl ⟨"b", "http://h", none, "AK", "SK"⟩) =
      .ok (⟨"/b", none, some "h", none⟩ : ParsedUrl)) ∧
    test_s3_connection (β := Unit) (fun _ _ => ()) (fun _ => "") (fun _ => "")
      (fun _ => ()) (fun _ => .ok ⟨"/b", none, some "h", none⟩)
      ⟨"b", "http://h", none, "AK", "SK"⟩ "D" "T" (.response 404) =
      .ok (classifyOutcome (.response 404)) ∧
    test_s3_connection (β := Unit) (fun _ _ => ()) (fun _ => "") (fun _ => "")
      (fun _ => ()) (fun _ => .error "bad")
      ⟨"b", "e", none, "AK", "SK"⟩ "D" "T" (.response 200) =
      .error ("Invalid URL: " ++ "bad") :=
  ⟨rfl,
   probe_outcomes_amended.1 (fun _ _ => ()) (fun _ => "") (fun _ => "") (fun _ => ())
     (fun _ => .ok ⟨"/b", none, some "h", none⟩) ⟨"b", "http://h", none, "AK", "SK"⟩
     "D" "T" (.response 404) ⟨"/b", none, some "h", none⟩ "h" rfl rfl,
   probe_outcomes_amended.2.2.2 (fun _ _ => ()) (fun _ => "") (fun _ => "") (fun _ => ())
     (fun _ => .error "bad") ⟨"b", "e", none, "AK", "SK"⟩
     "D" "T" (.response 200) "bad" rfl⟩

/-! ### Failure finalization (lib.rs `start_download_task` lines 280–292)
and the per-entry abort of the transfer loop -/

/-- Outcome of the spawned background unit of work: `perform_download`
returned `Ok`, returned `Err(msg)`, or diverged with an uncaught panic
(`tokio::spawn` absorbs a panic of its future without running any of the
surrounding handler code). -/
inductive WorkOutcome where
  | ok
  | err (msg : String)
  | panic
deriving DecidableEq, Repr

/-- Embedding of the `tokio::spawn` closure of `start_download_task`: only
the `Err(e)` branch touches the registry, marking the task failed with the
message and a completion timestamp (silently skipping an absent id); on
`Ok` the closure does nothing further, and on a panic nothing at all runs,
so the registry keeps whatever state the task was in. -/
def finalize_download (reg : Registry) (task_id : String) (outcome : WorkOutcome)
    (now : String) : Registry :=
  match outcome with
  | .err e => updateTask reg task_id
      (fun p => { p with status := "failed", error_message := some e, completed_at := some now })
  | _ => reg

/-- The transfer loop of `upload_openneuro_to_s3` (and equally the local
loop of `download_openneuro_dataset`) collapsed to its control flow: each
manifest entry either transfers or fails with a message, and every failure
returns immediately through `?`/`return Err(...)`.  Returns the number of
entries transferred, or the first failure. -/
def transferEntries : List (Except String Unit) → Except String Nat
  | [] => .ok 0
  | .error e :: _ => .error e
  | .ok _ :: rest =>
    match transferEntries rest with
    | .error e => .error e
    | .ok n => .ok (n + 1)

/-- C9 counterexample: a background unit of work that faults unexpectedly
(a panic rather than a returned `Err`) runs no handler, so a task stuck in
the non-terminal status `collecting` stays there — no `failed` status, no
error message, no completion timestamp. -/
theorem panic_leaves_task_stuck_counterexample :
    finalize_download [("t1", { freshProgress "t1" "T0" with status := "collecting" })]
        "t1" .panic "T1" =
      [("t1", { freshProgress "t1" "T0" with status := "collecting" })] ∧
    ("collecting" : String) ≠ "failed" ∧
    ({ freshProgress "t1" "T0" with status := "collecting" }).completed_at = none ∧
    ({ freshProgress "t1" "T0" with status := "collecting" }).error_message = none :=
  ⟨by simp [finalize_download], by decide, rfl, rfl⟩

/-- C9 amended: when the background work *returns* an error (manifest
failure, per-entry transport/IO failure, signing failure, non-2xx response)
and the task is present, its final state is status `failed` with the
non-empty message and a completion timestamp, and the loop abandons all
entries after the first failing one with no retry; but an unexpected panic
inside the spawned future is not caught — the registry is left unchanged,
so such a task stays in its prior non-terminal state. -/
theorem failure_finalization_amended :
    (∀ (reg : Registry) (id e now : String) (p : DownloadProgress),
      lookupTask reg id = some p → e ≠ "" →
      lookupTask (finalize_download reg id (.err e) now) id =
        some { p with status := "failed", error_message := some e, completed_at := some now } ∧
      some e ≠ some "") ∧
    (∀ (pre : List (Except String Unit)) (e : String) (post : List (Except String Unit)),
      (∀ r ∈ pre, r = Except.ok ()) →
      transferEntries (pre ++ Except.error e :: post) = .error e) ∧
    (∀ (reg : Registry) (id now : String),
      finalize_download reg id .panic now = reg) := by
  refine ⟨?_, ?_, fun _ _ _ => rfl⟩
  · intro reg id e now p hp he
    refine ⟨?_, by simpa using he⟩
    simp [finalize_download, lookup_updateTask_self, hp]
  · intro pre e post hpre
    induction pre with
    | nil => rfl
    | cons r rest ih =>
      have hr : r = Except.ok () := hpre r (List.mem_cons_self r rest)
      subst hr
      have : transferEntries (rest ++ Except.error e :: post) = .error e :=
        ih (fun x hx => hpre x (List.mem_cons_of_mem _ hx))
      simp [transferEntries, this]

/-- C9 witness: the failure theorem applied to a concrete one-task registry
and a loop whose second entry fails. -/
theorem failure_finalization_witness :
    lookupTask [("t1", freshProgress "t1" "T0")] "t1" = some (freshProgress "t1" "T0") ∧
    ("boom" : String) ≠ "" ∧
    lookupTask (finalize_download [("t1", freshProgress "t1" "T0")] "t1"
        (.err "boom") "T1") "t1" =
      some { freshProgress "t1" "T0" with status := "failed", error_message := some "boom", completed_at := some "T1" } ∧
    transferEntries [Except.ok (), Except.error "boom", Except.ok ()] = .error "boom" :=
  ⟨rfl, by decide,
   (failure_finalization_amended.1 [("t1", freshProgress "t1" "T0")] "t1" "boom" "T1"
     (freshProgress "t1" "T0") rfl (by decide)).1,
   failure_finalization_amended.2.1 [Except.ok ()] "boom" [Except.ok ()]
     (by intro r hr; simpa using hr)⟩
